import Mathlib

/-!
Shallow embedding of `src/rtc.c` (PIC32 RTCC driver) and proofs of its
specified properties: the BCD codec, the TIME/DATE register packing, the
torn-read-safe register sampler, the datetime formatter and the
peak-window classifier.

Machine integers are modelled as `Nat` with explicit reduction modulo
`256`, `65536` and `4294967296` wherever the C types (`uint8_t`,
`uint16_t`, `uint32_t`, `char`) convert or truncate.  Hardware register
reads are modelled by a stream `Nat → Nat` giving the value returned by
the n-th read of that register; retry loops take explicit fuel and
return `Option`.
-/

/-- Embeds `int_to_bcd` (rtc.c line 32): `((value / 10) << 4) | (value % 10)`.
The `uint8_t` parameter conversion and the `uint8_t` return conversion
are the two `% 256` reductions. -/
def int_to_bcd (value : Nat) : Nat :=
  (((value % 256) / 10) <<< 4 ||| (value % 256) % 10) % 256

/-- BCD decoding as written inline in `checkPeakHours` (rtc.c lines
211-212): `((bcd >> 4) * 10) + (bcd & 0x0F)`, stored into `uint8_t`.
The argument is a register byte, already reduced `% 256` at call sites;
the leading `% 256` models the `uint8_t` parameter. -/
def decode_bcd (b : Nat) : Nat :=
  (((b % 256) >>> 4) * 10 + ((b % 256) &&& 0x0F)) % 256

/-- Embeds `pack_time` (rtc.c lines 43-47): BCD hour, minute, second in bytes
3, 2, 1 of a 32-bit word.  The `% 4294967296` is the `uint32_t` result
type. -/
def pack_time (hour min sec : Nat) : Nat :=
  ((int_to_bcd hour) <<< 24 |||
   (int_to_bcd min) <<< 16 |||
   (int_to_bcd sec) <<< 8) % 4294967296

/-- Embeds `pack_date` (rtc.c lines 56-60): BCD `year % 100`, month, day in
bytes 3, 2, 1 of a 32-bit word.  `year` is a `uint16_t` parameter,
hence the `% 65536`. -/
def pack_date (year month day : Nat) : Nat :=
  ((int_to_bcd ((year % 65536) % 100)) <<< 24 |||
   (int_to_bcd month) <<< 16 |||
   (int_to_bcd day) <<< 8) % 4294967296

/-- Unpacking a TIME word: extract bytes 3, 2, 1 as in
`RTC_UpdateDateTime` (rtc.c lines 149-151) and BCD-decode each as in
`checkPeakHours` (rtc.c lines 211-212). -/
def unpack_time (w : Nat) : Nat × Nat × Nat :=
  (decode_bcd ((w >>> 24) &&& 0xFF),
   decode_bcd ((w >>> 16) &&& 0xFF),
   decode_bcd ((w >>> 8) &&& 0xFF))

/-- Unpacking a DATE word: extract bytes 3, 2, 1 as in
`RTC_UpdateDateTime` (rtc.c lines 146-148) and BCD-decode each. -/
def unpack_date (w : Nat) : Nat × Nat × Nat :=
  (decode_bcd ((w >>> 24) &&& 0xFF),
   decode_bcd ((w >>> 16) &&& 0xFF),
   decode_bcd ((w >>> 8) &&& 0xFF))

/- Arithmetic views of the bit operations used by the codec. -/

theorem and_255_eq_mod (x : Nat) : x &&& 255 = x % 256 :=
  Nat.and_pow_two_sub_one_eq_mod x 8

theorem and_15_eq_mod (x : Nat) : x &&& 15 = x % 16 :=
  Nat.and_pow_two_sub_one_eq_mod x 4

/-- A bitwise-or whose right operand lies below the leading power of
two of the left operand is an addition. -/
theorem lor_two_pow_add (n x y : Nat) (hy : y < 2 ^ n) :
    2 ^ n * x ||| y = 2 ^ n * x + y := by
  apply Nat.eq_of_testBit_eq
  intro i
  rw [Nat.testBit_lor, Nat.testBit_mul_pow_two_add x hy i]
  have h0 : (2 ^ n * x).testBit i =
      if i < n then false else x.testBit (i - n) := by
    simpa using Nat.testBit_mul_pow_two_add x (Nat.two_pow_pos n) i
  rw [h0]
  by_cases h : i < n
  · simp [h]
  · have hyi : y.testBit i = false :=
      Nat.testBit_lt_two_pow
        (lt_of_lt_of_le hy (Nat.pow_le_pow_right (by norm_num) (Nat.le_of_not_lt h)))
    simp [h, hyi]

theorem int_to_bcd_lt (v : Nat) : int_to_bcd v < 256 :=
  Nat.mod_lt _ (by norm_num)

/-- Within one byte the BCD encoder decomposes into nibble arithmetic. -/
theorem bcd_roundtrip : ∀ v, v ≤ 99 → decode_bcd (int_to_bcd v) = v := by
  decide

theorem bcd_hi : ∀ v, v ≤ 99 → int_to_bcd v >>> 4 = v / 10 := by
  decide

theorem bcd_lo : ∀ v, v ≤ 99 → int_to_bcd v &&& 0x0F = v % 10 := by
  decide

/-- Rewrites `pack_time` as plain arithmetic. -/
theorem pack_time_eq (h m s : Nat) :
    pack_time h m s =
      16777216 * int_to_bcd h + 65536 * int_to_bcd m + 256 * int_to_bcd s := by
  have hh := int_to_bcd_lt h
  have hm := int_to_bcd_lt m
  have hs := int_to_bcd_lt s
  have e24 : (2:Nat) ^ 24 = 16777216 := by norm_num
  have e16 : (2:Nat) ^ 16 = 65536 := by norm_num
  have e8 : (2:Nat) ^ 8 = 256 := by norm_num
  unfold pack_time
  rw [Nat.lor_assoc, Nat.shiftLeft_eq, Nat.shiftLeft_eq, Nat.shiftLeft_eq,
    mul_comm (int_to_bcd h) (2 ^ 24), mul_comm (int_to_bcd m) (2 ^ 16),
    mul_comm (int_to_bcd s) (2 ^ 8)]
  rw [lor_two_pow_add 16 (int_to_bcd m) (2 ^ 8 * int_to_bcd s) (by omega)]
  rw [lor_two_pow_add 24 (int_to_bcd h)
    (2 ^ 16 * int_to_bcd m + 2 ^ 8 * int_to_bcd s) (by omega)]
  omega

/-- Rewrites `pack_date` as plain arithmetic. -/
theorem pack_date_eq (y mo d : Nat) :
    pack_date y mo d =
      16777216 * int_to_bcd (y % 65536 % 100) + 65536 * int_to_bcd mo +
        256 * int_to_bcd d := by
  have hy := int_to_bcd_lt (y % 65536 % 100)
  have hmo := int_to_bcd_lt mo
  have hd := int_to_bcd_lt d
  have e24 : (2:Nat) ^ 24 = 16777216 := by norm_num
  have e16 : (2:Nat) ^ 16 = 65536 := by norm_num
  have e8 : (2:Nat) ^ 8 = 256 := by norm_num
  unfold pack_date
  rw [Nat.lor_assoc, Nat.shiftLeft_eq, Nat.shiftLeft_eq, Nat.shiftLeft_eq,
    mul_comm (int_to_bcd (y % 65536 % 100)) (2 ^ 24), mul_comm (int_to_bcd mo) (2 ^ 16),
    mul_comm (int_to_bcd d) (2 ^ 8)]
  rw [lor_two_pow_add 16 (int_to_bcd mo) (2 ^ 8 * int_to_bcd d) (by omega)]
  rw [lor_two_pow_add 24 (int_to_bcd (y % 65536 % 100))
    (2 ^ 16 * int_to_bcd mo + 2 ^ 8 * int_to_bcd d) (by omega)]
  omega

/- Extraction of the three used bytes of a packed word. -/

theorem byte_hi (a b c : Nat) (ha : a < 256) (hb : b < 256) (hc : c < 256) :
    ((16777216 * a + 65536 * b + 256 * c) >>> 24) &&& 255 = a := by
  rw [Nat.shiftRight_eq_div_pow, and_255_eq_mod]
  have : (2:Nat) ^ 24 = 16777216 := by norm_num
  omega

theorem byte_mid (a b c : Nat) (ha : a < 256) (hb : b < 256) (hc : c < 256) :
    ((16777216 * a + 65536 * b + 256 * c) >>> 16) &&& 255 = b := by
  rw [Nat.shiftRight_eq_div_pow, and_255_eq_mod]
  have : (2:Nat) ^ 16 = 65536 := by norm_num
  omega

theorem byte_lo (a b c : Nat) (ha : a < 256) (hb : b < 256) (hc : c < 256) :
    ((16777216 * a + 65536 * b + 256 * c) >>> 8) &&& 255 = c := by
  rw [Nat.shiftRight_eq_div_pow, and_255_eq_mod]
  have : (2:Nat) ^ 8 = 256 := by norm_num
  omega

/-- Unpacking inverts packing of a TIME word for two-digit fields. -/
theorem unpack_time_pack (h m s : Nat) (hh : h ≤ 99) (hm : m ≤ 99) (hs : s ≤ 99) :
    unpack_time (pack_time h m s) = (h, m, s) := by
  unfold unpack_time
  rw [pack_time_eq,
    byte_hi _ _ _ (int_to_bcd_lt h) (int_to_bcd_lt m) (int_to_bcd_lt s),
    byte_mid _ _ _ (int_to_bcd_lt h) (int_to_bcd_lt m) (int_to_bcd_lt s),
    byte_lo _ _ _ (int_to_bcd_lt h) (int_to_bcd_lt m) (int_to_bcd_lt s),
    bcd_roundtrip h hh, bcd_roundtrip m hm, bcd_roundtrip s hs]

/-- Unpacking inverts packing of a DATE word up to `year % 100`. -/
theorem unpack_date_pack (y mo d : Nat) (hy : y < 65536) (hmo : mo ≤ 99) (hd : d ≤ 99) :
    unpack_date (pack_date y mo d) = (y % 100, mo, d) := by
  unfold unpack_date
  rw [pack_date_eq,
    byte_hi _ _ _ (int_to_bcd_lt (y % 65536 % 100)) (int_to_bcd_lt mo) (int_to_bcd_lt d),
    byte_mid _ _ _ (int_to_bcd_lt (y % 65536 % 100)) (int_to_bcd_lt mo) (int_to_bcd_lt d),
    byte_lo _ _ _ (int_to_bcd_lt (y % 65536 % 100)) (int_to_bcd_lt mo) (int_to_bcd_lt d),
    Nat.mod_eq_of_lt hy,
    bcd_roundtrip (y % 100) (by omega), bcd_roundtrip mo hmo, bcd_roundtrip d hd]

/-- Claim C4: for every value v in [0,99], decoding the BCD byte produced
by the encoder `((v/10)<<4)|(v%10)` with the decoder
`(byte>>4)*10 + (byte & 0xF)` returns v. -/
theorem claim_C4_bcd_roundtrip (v : Nat) (hv : v ≤ 99) :
    decode_bcd (int_to_bcd v) = v :=
  bcd_roundtrip v hv

theorem claim_C4_witness : decode_bcd (int_to_bcd 59) = 59 :=
  claim_C4_bcd_roundtrip 59 (by decide)

/-- Claim C7: for every hour in [0,23], minute in [0,59], second in
[0,59], unpacking the 32-bit word produced by `pack_time` (extracting
and BCD-decoding bytes 3, 2 and 1) returns exactly (hour, minute,
second). -/
theorem claim_C7_unpack_pack_time (h m s : Nat)
    (hh : h ≤ 23) (hm : m ≤ 59) (hs : s ≤ 59) :
    unpack_time (pack_time h m s) = (h, m, s) :=
  unpack_time_pack h m s (by omega) (by omega) (by omega)

theorem claim_C7_witness : unpack_time (pack_time 14 30 5) = (14, 30, 5) :=
  claim_C7_unpack_pack_time 14 30 5 (by decide) (by decide) (by decide)

/-- Claim C8: for every (`uint16_t`-representable) year, month in [1,12]
and day in [1,31], unpacking the word produced by `pack_date` returns
(year mod 100, month, day); the century is not round-tripped, so year
2105 decodes as 05. -/
theorem claim_C8_unpack_pack_date (y mo d : Nat) (hy : y < 65536)
    (hmo1 : 1 ≤ mo) (hmo : mo ≤ 12) (hd1 : 1 ≤ d) (hd : d ≤ 31) :
    unpack_date (pack_date y mo d) = (y % 100, mo, d) :=
  unpack_date_pack y mo d hy (by omega) (by omega)

theorem claim_C8_witness : unpack_date (pack_date 2105 8 8) = (5, 8, 8) :=
  claim_C8_unpack_pack_date 2105 8 8 (by decide) (by decide) (by decide)
    (by decide) (by decide)

/-- The datetime formatter (rtc.c lines 146-173): byte extraction from
the sampled DATE and TIME words followed by the twenty character-cell
writes `current_datetime[0] .. current_datetime[19]`, in order.  Each
cell holds the written character code (`'0' + nibble` is `nibble + 48`),
reduced `% 256` for the 8-bit `char` cell. -/
def formatDateTime (date_reg time_reg : Nat) : List Nat :=
  [50, 48,
   ((((date_reg >>> 24) &&& 0xFF) >>> 4) + 48) % 256,
   ((((date_reg >>> 24) &&& 0xFF) &&& 0x0F) + 48) % 256, 45,
   ((((date_reg >>> 16) &&& 0xFF) >>> 4) + 48) % 256,
   ((((date_reg >>> 16) &&& 0xFF) &&& 0x0F) + 48) % 256, 45,
   ((((date_reg >>> 8) &&& 0xFF) >>> 4) + 48) % 256,
   ((((date_reg >>> 8) &&& 0xFF) &&& 0x0F) + 48) % 256, 32,
   ((((time_reg >>> 24) &&& 0xFF) >>> 4) + 48) % 256,
   ((((time_reg >>> 24) &&& 0xFF) &&& 0x0F) + 48) % 256, 58,
   ((((time_reg >>> 16) &&& 0xFF) >>> 4) + 48) % 256,
   ((((time_reg >>> 16) &&& 0xFF) &&& 0x0F) + 48) % 256, 58,
   ((((time_reg >>> 8) &&& 0xFF) >>> 4) + 48) % 256,
   ((((time_reg >>> 8) &&& 0xFF) &&& 0x0F) + 48) % 256, 0]

/-- Claim C3: on a sampled pair with valid BCD digits the formatter
produces exactly the 19 character codes of the zero-padded pattern
`YYYY-MM-DD HH:MM:SS` plus a NUL terminator, with the century
hard-coded to "20" (codes 50, 48). -/
theorem claim_C3_format (y mo d h mi s : Nat) (hy : y < 65536)
    (hmo : mo ≤ 99) (hd : d ≤ 99) (hh : h ≤ 99) (hmi : mi ≤ 99) (hs : s ≤ 99) :
    formatDateTime (pack_date y mo d) (pack_time h mi s) =
      [50, 48, 48 + y % 100 / 10, 48 + y % 100 % 10, 45,
       48 + mo / 10, 48 + mo % 10, 45,
       48 + d / 10, 48 + d % 10, 32,
       48 + h / 10, 48 + h % 10, 58,
       48 + mi / 10, 48 + mi % 10, 58,
       48 + s / 10, 48 + s % 10, 0] := by
  unfold formatDateTime
  rw [pack_date_eq, pack_time_eq,
    byte_hi _ _ _ (int_to_bcd_lt (y % 65536 % 100)) (int_to_bcd_lt mo) (int_to_bcd_lt d),
    byte_mid _ _ _ (int_to_bcd_lt (y % 65536 % 100)) (int_to_bcd_lt mo) (int_to_bcd_lt d),
    byte_lo _ _ _ (int_to_bcd_lt (y % 65536 % 100)) (int_to_bcd_lt mo) (int_to_bcd_lt d),
    byte_hi _ _ _ (int_to_bcd_lt h) (int_to_bcd_lt mi) (int_to_bcd_lt s),
    byte_mid _ _ _ (int_to_bcd_lt h) (int_to_bcd_lt mi) (int_to_bcd_lt s),
    byte_lo _ _ _ (int_to_bcd_lt h) (int_to_bcd_lt mi) (int_to_bcd_lt s),
    Nat.mod_eq_of_lt hy,
    bcd_hi (y % 100) (by omega), bcd_lo (y % 100) (by omega),
    bcd_hi mo hmo, bcd_lo mo hmo,
    bcd_hi d hd, bcd_lo d hd,
    bcd_hi h hh, bcd_lo h hh,
    bcd_hi mi hmi, bcd_lo mi hmi,
    bcd_hi s hs, bcd_lo s hs]
  simp only [List.cons.injEq, true_and, and_true]
  omega

theorem claim_C3_witness :
    formatDateTime (pack_date 2025 8 8) (pack_time 14 30 5) =
      ("2025-08-08 14:30:05".toList.map Char.toNat) ++ [0] := by
  rw [claim_C3_format 2025 8 8 14 30 5 (by decide) (by decide) (by decide)
    (by decide) (by decide) (by decide)]
  decide

/-- The mutable globals of rtc.c: the shared formatted-datetime buffer
(line 16, twenty `char` cells), the external tariff flag (line 19) and
the peak-window configuration (lines 22-23, `uint16_t`). -/
structure RTCState where
  current_datetime : List Nat
  multiTariff : Int
  peak_start_minutes : Nat
  peak_end_minutes : Nat
  deriving DecidableEq

/-- Zero-initialised globals: zeroed buffer and tariff flag, and the
default unconfigured peak window (both bounds 0, rtc.c lines 22-23). -/
def RTCState.init : RTCState :=
  { current_datetime := List.replicate 20 0, multiTariff := 0,
    peak_start_minutes := 0, peak_end_minutes := 0 }

/-- Embeds `setpeakhours` (rtc.c lines 185-189): stores the window bounds in
minutes since midnight.  Parameters are `uint8_t`, the stored fields
`uint16_t`. -/
def setpeakhours (start_hour start_min end_hour end_min : Nat)
    (s : RTCState) : RTCState :=
  { s with
    peak_start_minutes := ((start_hour % 256) * 60 + start_min % 256) % 65536,
    peak_end_minutes := ((end_hour % 256) * 60 + end_min % 256) % 65536 }

/-- Minutes since midnight of a TIME register value, as computed in
`checkPeakHours` (rtc.c lines 207-215): extract the hour and minute
bytes, BCD-decode them, combine into a `uint16_t`. -/
def currentMinutes (time_reg : Nat) : Nat :=
  (decode_bcd ((time_reg >>> 24) &&& 0xFF) * 60 +
   decode_bcd ((time_reg >>> 16) &&& 0xFF)) % 65536

/-- The tariff classification outcome. -/
inductive TariffState where
  | Peak
  | OffPeak
  deriving DecidableEq

/-- The branch decision of `checkPeakHours` (rtc.c lines 218-219): Peak
iff `peak_start_minutes <= current_minutes && current_minutes <
peak_end_minutes`. -/
def classify (start_m end_m time_reg : Nat) : TariffState :=
  if start_m ≤ currentMinutes time_reg ∧ currentMinutes time_reg < end_m then
    TariffState.Peak
  else
    TariffState.OffPeak

/-- The body of `checkPeakHours` once a consistent TIME value is read
(rtc.c lines 207-225): write `multiTariff` and emit one UART status
line, according to the branch taken. -/
def checkPeakBody (s : RTCState) (time_reg : Nat) : RTCState × List String :=
  match classify s.peak_start_minutes s.peak_end_minutes time_reg with
  | TariffState.Peak => ({ s with multiTariff := 1 }, ["(PEAK-HOUR)\n"])
  | TariffState.OffPeak => ({ s with multiTariff := 0 }, ["(OFFPEAK-HOUR)\n"])

/-- The consistent-read retry loop of `checkPeakHours` (rtc.c lines
201-204).  `tr n` is the value returned by the n-th hardware read of
RTCTIME; attempt k reads `tr (2*k)` and `tr (2*k+1)` and retries on
mismatch.  `fuel` bounds the attempts of this shallow embedding; the C
loop itself is unbounded. -/
def checkTimeLoop (tr : Nat → Nat) : Nat → Nat → Option Nat
  | 0, _ => none
  | fuel + 1, k =>
    if tr (2 * k) = tr (2 * k + 1) then some (tr (2 * k))
    else checkTimeLoop tr fuel (k + 1)

/-- Embeds `checkPeakHours` (rtc.c lines 196-226). -/
def checkPeakHours (tr : Nat → Nat) (fuel : Nat) (s : RTCState) :
    Option (RTCState × List String) :=
  (checkTimeLoop tr fuel 0).map (checkPeakBody s)

/-- The four-read consistency loop of `RTC_UpdateDateTime` (rtc.c lines
138-143): attempt k reads DATE, TIME, DATE, TIME; on any mismatch the
whole sequence is retried.  `dr n` / `tr n` are the values returned by
the n-th read of RTCDATE / RTCTIME. -/
def RTC_SampleLoop (dr tr : Nat → Nat) : Nat → Nat → Option (Nat × Nat)
  | 0, _ => none
  | fuel + 1, k =>
    if dr (2 * k) = dr (2 * k + 1) ∧ tr (2 * k) = tr (2 * k + 1) then
      some (dr (2 * k), tr (2 * k))
    else RTC_SampleLoop dr tr fuel (k + 1)

/-- Embeds `RTC_UpdateDateTime` (rtc.c lines 133-174): sample a consistent
(DATE, TIME) pair and overwrite the shared datetime buffer with its
formatted rendering. -/
def RTC_UpdateDateTime (dr tr : Nat → Nat) (fuel : Nat) (s : RTCState) :
    Option RTCState :=
  (RTC_SampleLoop dr tr fuel 0).map
    (fun p => { s with current_datetime := formatDateTime p.1 p.2 })

/-- Minutes-of-day computed from a packed TIME word with two-digit
fields. -/
theorem currentMinutes_pack (h m s : Nat) (hh : h ≤ 99) (hm : m ≤ 99) :
    currentMinutes (pack_time h m s) = h * 60 + m := by
  unfold currentMinutes
  rw [pack_time_eq,
    byte_hi _ _ _ (int_to_bcd_lt h) (int_to_bcd_lt m) (int_to_bcd_lt s),
    byte_mid _ _ _ (int_to_bcd_lt h) (int_to_bcd_lt m) (int_to_bcd_lt s),
    bcd_roundtrip h hh, bcd_roundtrip m hm]
  omega

/-- Claim C1: for every configured window and every sampled time with
in-range BCD fields, the classifier returns Peak iff
`minutes_now = hour*60+minute` satisfies `start <= minutes_now < end`;
in particular a time exactly at the start minute is Peak and a time
exactly at the end minute is OffPeak. -/
theorem claim_C1_classify_iff (s0 : RTCState)
    (start_hour start_min end_hour end_min h m sec : Nat)
    (hsh : start_hour ≤ 23) (hsm : start_min ≤ 59)
    (heh : end_hour ≤ 23) (hem : end_min ≤ 59)
    (hh : h ≤ 23) (hm : m ≤ 59) (hsec : sec ≤ 59) :
    classify (setpeakhours start_hour start_min end_hour end_min s0).peak_start_minutes
        (setpeakhours start_hour start_min end_hour end_min s0).peak_end_minutes
        (pack_time h m sec) = TariffState.Peak ↔
      (start_hour * 60 + start_min ≤ h * 60 + m ∧
        h * 60 + m < end_hour * 60 + end_min) := by
  have hstart : (setpeakhours start_hour start_min end_hour end_min
      s0).peak_start_minutes = start_hour * 60 + start_min := by
    unfold setpeakhours
    dsimp only
    rw [Nat.mod_eq_of_lt (show start_hour < 256 by omega),
      Nat.mod_eq_of_lt (show start_min < 256 by omega)]
    exact Nat.mod_eq_of_lt (by omega)
  have hend : (setpeakhours start_hour start_min end_hour end_min
      s0).peak_end_minutes = end_hour * 60 + end_min := by
    unfold setpeakhours
    dsimp only
    rw [Nat.mod_eq_of_lt (show end_hour < 256 by omega),
      Nat.mod_eq_of_lt (show end_min < 256 by omega)]
    exact Nat.mod_eq_of_lt (by omega)
  rw [hstart, hend]
  unfold classify
  rw [currentMinutes_pack h m sec (by omega) (by omega)]
  split
  next hc => exact iff_of_true rfl hc
  next hc => exact iff_of_false (by decide) hc

theorem claim_C1_witness :
    classify (setpeakhours 8 0 17 0 RTCState.init).peak_start_minutes
        (setpeakhours 8 0 17 0 RTCState.init).peak_end_minutes
        (pack_time 8 0 0) = TariffState.Peak :=
  (claim_C1_classify_iff RTCState.init 8 0 17 0 8 0 0 (by decide) (by decide)
    (by decide) (by decide) (by decide) (by decide) (by decide)).mpr (by decide)

/-- Claim C6: whenever the stored window has start >= end -- the default
unconfigured window start = 0, end = 0 included -- the classifier
returns OffPeak for every TIME register value. -/
theorem claim_C6_degenerate_window (start_m end_m time_reg : Nat)
    (hge : end_m ≤ start_m) :
    classify start_m end_m time_reg = TariffState.OffPeak := by
  unfold classify
  have hno : ¬(start_m ≤ currentMinutes time_reg ∧
      currentMinutes time_reg < end_m) := by omega
  rw [if_neg hno]

theorem claim_C6_witness :
    classify RTCState.init.peak_start_minutes RTCState.init.peak_end_minutes
      (pack_time 12 30 0) = TariffState.OffPeak :=
  claim_C6_degenerate_window RTCState.init.peak_start_minutes
    RTCState.init.peak_end_minutes (pack_time 12 30 0) (by decide)

/-- Claim C5: every terminating call of `checkPeakHours` emits exactly
one status line -- containing "PEAK-HOUR" when the classification is
Peak and "OFFPEAK-HOUR" when it is OffPeak -- and leaves the external
tariff cell `multiTariff` equal to 1 iff the classification is Peak,
else 0. -/
theorem claim_C5_effects (tr : Nat → Nat) (fuel : Nat) (s s' : RTCState)
    (out : List String)
    (hret : checkPeakHours tr fuel s = some (s', out)) :
    ∃ treg, checkTimeLoop tr fuel 0 = some treg ∧
      (s'.multiTariff = 1 ↔
        classify s.peak_start_minutes s.peak_end_minutes treg = TariffState.Peak) ∧
      (s'.multiTariff = 0 ↔
        classify s.peak_start_minutes s.peak_end_minutes treg = TariffState.OffPeak) ∧
      (classify s.peak_start_minutes s.peak_end_minutes treg = TariffState.Peak →
        ∃ a b, out = [a ++ "PEAK-HOUR" ++ b]) ∧
      (classify s.peak_start_minutes s.peak_end_minutes treg = TariffState.OffPeak →
        ∃ a b, out = [a ++ "OFFPEAK-HOUR" ++ b]) := by
  unfold checkPeakHours at hret
  cases hloop : checkTimeLoop tr fuel 0 with
  | none =>
    rw [hloop] at hret
    cases hret
  | some treg =>
    rw [hloop] at hret
    simp only [Option.map_some', Option.some.injEq] at hret
    refine ⟨treg, rfl, ?_⟩
    unfold checkPeakBody at hret
    cases hcl : classify s.peak_start_minutes s.peak_end_minutes treg with
    | Peak =>
      rw [hcl] at hret
      injection hret with h1 h2
      subst h1
      subst h2
      refine ⟨?_, ?_, ?_, ?_⟩
      · exact iff_of_true rfl rfl
      · exact iff_of_false (by norm_num) (by decide)
      · intro hp
        exact ⟨"(", ")\n", by decide⟩
      · intro hop
        exact absurd hop (by decide)
    | OffPeak =>
      rw [hcl] at hret
      injection hret with h1 h2
      subst h1
      subst h2
      refine ⟨?_, ?_, ?_, ?_⟩
      · exact iff_of_false (by norm_num) (by decide)
      · exact iff_of_true rfl rfl
      · intro hp
        exact absurd hp (by decide)
      · intro hop
        exact ⟨"(", ")\n", by decide⟩

/-- A mock TIME register source that is consistent from the first
attempt on, reading 09:15:00. -/
def steadyTime : Nat → Nat :=
  fun _ => pack_time 9 15 0

theorem claim_C5_witness :
    ∃ treg, checkTimeLoop steadyTime 1 0 = some treg ∧
      (({ setpeakhours 8 0 17 0 RTCState.init with multiTariff := 1 } :
          RTCState).multiTariff = 1 ↔
        classify (setpeakhours 8 0 17 0 RTCState.init).peak_start_minutes
          (setpeakhours 8 0 17 0 RTCState.init).peak_end_minutes treg =
          TariffState.Peak) ∧
      (({ setpeakhours 8 0 17 0 RTCState.init with multiTariff := 1 } :
          RTCState).multiTariff = 0 ↔
        classify (setpeakhours 8 0 17 0 RTCState.init).peak_start_minutes
          (setpeakhours 8 0 17 0 RTCState.init).peak_end_minutes treg =
          TariffState.OffPeak) ∧
      (classify (setpeakhours 8 0 17 0 RTCState.init).peak_start_minutes
          (setpeakhours 8 0 17 0 RTCState.init).peak_end_minutes treg =
          TariffState.Peak →
        ∃ a b, ["(PEAK-HOUR)\n"] = [a ++ "PEAK-HOUR" ++ b]) ∧
      (classify (setpeakhours 8 0 17 0 RTCState.init).peak_start_minutes
          (setpeakhours 8 0 17 0 RTCState.init).peak_end_minutes treg =
          TariffState.OffPeak →
        ∃ a b, ["(PEAK-HOUR)\n"] = [a ++ "OFFPEAK-HOUR" ++ b]) :=
  claim_C5_effects steadyTime 1 (setpeakhours 8 0 17 0 RTCState.init)
    { setpeakhours 8 0 17 0 RTCState.init with multiTariff := 1 }
    ["(PEAK-HOUR)\n"] (by decide)

/-- Claim C10: a terminating `checkPeakHours` call leaves the
peak-window configuration and the shared formatted-datetime buffer
unchanged; its only state effects are the tariff-flag write (to 0 or 1)
and a single emitted status line. -/
theorem claim_C10_frame (tr : Nat → Nat) (fuel : Nat) (s s' : RTCState)
    (out : List String)
    (hret : checkPeakHours tr fuel s = some (s', out)) :
    s'.peak_start_minutes = s.peak_start_minutes ∧
    s'.peak_end_minutes = s.peak_end_minutes ∧
    s'.current_datetime = s.current_datetime ∧
    (s'.multiTariff = 0 ∨ s'.multiTariff = 1) ∧
    out.length = 1 := by
  unfold checkPeakHours at hret
  cases hloop : checkTimeLoop tr fuel 0 with
  | none =>
    rw [hloop] at hret
    cases hret
  | some treg =>
    rw [hloop] at hret
    simp only [Option.map_some', Option.some.injEq] at hret
    unfold checkPeakBody at hret
    cases hcl : classify s.peak_start_minutes s.peak_end_minutes treg with
    | Peak =>
      rw [hcl] at hret
      injection hret with h1 h2
      subst h1
      subst h2
      exact ⟨rfl, rfl, rfl, Or.inr rfl, rfl⟩
    | OffPeak =>
      rw [hcl] at hret
      injection hret with h1 h2
      subst h1
      subst h2
      exact ⟨rfl, rfl, rfl, Or.inl rfl, rfl⟩

theorem claim_C10_witness :
    ({ setpeakhours 8 0 17 0 RTCState.init with multiTariff := 1 } :
        RTCState).peak_start_minutes =
      (setpeakhours 8 0 17 0 RTCState.init).peak_start_minutes ∧
    ({ setpeakhours 8 0 17 0 RTCState.init with multiTariff := 1 } :
        RTCState).peak_end_minutes =
      (setpeakhours 8 0 17 0 RTCState.init).peak_end_minutes ∧
    ({ setpeakhours 8 0 17 0 RTCState.init with multiTariff := 1 } :
        RTCState).current_datetime =
      (setpeakhours 8 0 17 0 RTCState.init).current_datetime ∧
    (({ setpeakhours 8 0 17 0 RTCState.init with multiTariff := 1 } :
        RTCState).multiTariff = 0 ∨
      ({ setpeakhours 8 0 17 0 RTCState.init with multiTariff := 1 } :
        RTCState).multiTariff = 1) ∧
    (["(PEAK-HOUR)\n"] : List String).length = 1 :=
  claim_C10_frame steadyTime 1 (setpeakhours 8 0 17 0 RTCState.init)
    { setpeakhours 8 0 17 0 RTCState.init with multiTariff := 1 }
    ["(PEAK-HOUR)\n"] (by decide)

/-- Soundness of the four-read sampling loop: any returned pair was
read twice consistently at some attempt within the fuel window. -/
theorem sampleLoop_sound (dr tr : Nat → Nat) :
    ∀ fuel k d t, RTC_SampleLoop dr tr fuel k = some (d, t) →
      ∃ j, k ≤ j ∧ j < k + fuel ∧
        dr (2 * j) = d ∧ dr (2 * j + 1) = d ∧
        tr (2 * j) = t ∧ tr (2 * j + 1) = t := by
  intro fuel
  induction fuel with
  | zero =>
    intro k d t hcontra
    simp [RTC_SampleLoop] at hcontra
  | succ n ih =>
    intro k d t hret
    simp only [RTC_SampleLoop] at hret
    split at hret
    next hc =>
      obtain ⟨hd, ht⟩ := hc
      simp only [Option.some.injEq, Prod.mk.injEq] at hret
      obtain ⟨hd2, ht2⟩ := hret
      subst hd2
      subst ht2
      exact ⟨k, le_refl k, by omega, rfl, hd.symm, rfl, ht.symm⟩
    next hc =>
      obtain ⟨j, hkj, hjlt, rest⟩ := ih (k + 1) d t hret
      exact ⟨j, by omega, by omega, rest⟩

/-- If some attempt within the fuel window reads consistently, the
sampling loop returns a pair. -/
theorem sampleLoop_total (dr tr : Nat → Nat) :
    ∀ fuel k j, k ≤ j → j < k + fuel →
      dr (2 * j) = dr (2 * j + 1) → tr (2 * j) = tr (2 * j + 1) →
      ∃ p, RTC_SampleLoop dr tr fuel k = some p := by
  intro fuel
  induction fuel with
  | zero =>
    intro k j h1 h2
    omega
  | succ n ih =>
    intro k j hkj hjlt hdj htj
    simp only [RTC_SampleLoop]
    split
    next => exact ⟨_, rfl⟩
    next hc =>
      have hne : j ≠ k := by
        rintro rfl
        exact hc ⟨hdj, htj⟩
      exact ih (k + 1) j (by omega) (by omega) hdj htj

/-- Claim C2: the sampler returns only pairs for which the two
consecutive reads of each register agreed; a transient mismatch is
never returned. -/
theorem claim_C2_sample_sound (dr tr : Nat → Nat) (fuel k d t : Nat)
    (hret : RTC_SampleLoop dr tr fuel k = some (d, t)) :
    ∃ j, k ≤ j ∧ j < k + fuel ∧
      dr (2 * j) = d ∧ dr (2 * j + 1) = d ∧
      tr (2 * j) = t ∧ tr (2 * j + 1) = t :=
  sampleLoop_sound dr tr fuel k d t hret

/-- A mock DATE register source: always returns the same packed date. -/
def mockDate : Nat → Nat :=
  fun _ => pack_date 2025 8 8

/-- A mock TIME register source whose very first read returns a stale
word (a hardware tick in progress) and which is stable from the second
read on. -/
def mockTime : Nat → Nat :=
  fun n => if n = 0 then pack_time 14 29 59 else pack_time 14 30 0

theorem claim_C2_witness :
    RTC_SampleLoop mockDate mockTime 2 0 =
      some (pack_date 2025 8 8, pack_time 14 30 0) ∧
    ∃ j, 0 ≤ j ∧ j < 0 + 2 ∧
      mockDate (2 * j) = pack_date 2025 8 8 ∧
      mockDate (2 * j + 1) = pack_date 2025 8 8 ∧
      mockTime (2 * j) = pack_time 14 30 0 ∧
      mockTime (2 * j + 1) = pack_time 14 30 0 :=
  ⟨by decide,
   claim_C2_sample_sound mockDate mockTime 2 0 (pack_date 2025 8 8)
     (pack_time 14 30 0) (by decide)⟩

/-- Claim C9: the retry loop of the sampler has no enforced iteration
bound, but under the precondition that the register source yields two
consecutive agreeing reads at some attempt k, the sampler (with fuel
k+1) terminates and returns an agreeing pair. -/
theorem claim_C9_sample_terminates (dr tr : Nat → Nat) (k : Nat)
    (hd : dr (2 * k) = dr (2 * k + 1)) (ht : tr (2 * k) = tr (2 * k + 1)) :
    ∃ d t, RTC_SampleLoop dr tr (k + 1) 0 = some (d, t) ∧
      ∃ j, j ≤ k ∧ dr (2 * j) = d ∧ dr (2 * j + 1) = d ∧
        tr (2 * j) = t ∧ tr (2 * j + 1) = t := by
  obtain ⟨p, hp⟩ := sampleLoop_total dr tr (k + 1) 0 k (by omega) (by omega) hd ht
  obtain ⟨j, h0j, hjlt, rest⟩ :=
    sampleLoop_sound dr tr (k + 1) 0 p.1 p.2 (by rw [hp])
  exact ⟨p.1, p.2, by rw [hp], j, by omega, rest⟩

theorem claim_C9_witness :
    ∃ d t, RTC_SampleLoop mockDate mockTime (1 + 1) 0 = some (d, t) ∧
      ∃ j, j ≤ 1 ∧ mockDate (2 * j) = d ∧ mockDate (2 * j + 1) = d ∧
        mockTime (2 * j) = t ∧ mockTime (2 * j + 1) = t :=
  claim_C9_sample_terminates mockDate mockTime 1 (by decide) (by decide)
